import Mathlib

/-!
Verification of the G502 HID driver control-plane core (src/g502.c,
src/include/g502.h) against its specification.  The C code is shallowly
embedded: machine bytes are `Nat` values reduced mod 256 at read sites,
the per-device driver data is an explicit structure threaded through the
operations, and the blocking transport primitive is an oracle of
successive return codes.
-/

namespace G502

/-! ### Constants, from src/include/g502.h -/

def LINUX_KERNEL_SW_ID : Nat := 0x1
def G502_MAX_RESOLUTION_DPI : Nat := 25600
def G502_MAX_PROFILES : Nat := 5
def G502_COMMAND_SHORT_REPORT_ID : Nat := 0x10
def G502_COMMAND_LONG_REPORT_ID : Nat := 0x11
def G502_COMMAND_LONG_SIZE : Nat := 20
def G502_COMMAND_SHORT_SIZE : Nat := 7
def G502_DEVICE_INDEX_RECEIVER : Nat := 0xff
def G502_FEATURE_REPORT_RATE : Nat := 0x0b
def G502_GET_REPORT_RATE : Nat := 0x10
def G502_SET_REPORT_RATE : Nat := 0x20
def G502_FEATURE_DPI : Nat := 0x0a
def G502_GET_DPI : Nat := 0x20
def G502_SET_DPI : Nat := 0x03
def G502_FEATURE_ON_BOARD_PROFILES : Nat := 0x0c
def G502_CONTROL_ON_BOARD_PROFILES : Nat := 0x10
def G502_ON_BOARD_PROFILES_OFF : Nat := 0x02
def G502_FEATURE_DEVICE_FW : Nat := 0x03

/-- `report_rate_htd` from g502.h: vendor wire bitmask to human-readable Hz.
The C `switch` on a `u8` is an if-chain on the byte value; the `default`
arm returns `0`. -/
def report_rate_htd (report_rate : Nat) : Nat :=
  if report_rate = 0x1 then 125
  else if report_rate = 0x2 then 250
  else if report_rate = 0x4 then 500
  else if report_rate = 0x8 then 1000
  else 0

/-- `report_rate_dth` from g502.h: human-readable Hz to vendor wire bitmask.
The `default` arm returns `0`. -/
def report_rate_dth (report_rate : Nat) : Nat :=
  if report_rate = 125 then 0x1
  else if report_rate = 250 then 0x2
  else if report_rate = 500 then 0x4
  else if report_rate = 1000 then 0x8
  else 0

/-- Outside {125,250,500,1000}, `report_rate_dth` returns the 0 sentinel. -/
lemma report_rate_dth_unmapped (v : Nat)
    (h : ¬(v = 125 ∨ v = 250 ∨ v = 500 ∨ v = 1000)) : report_rate_dth v = 0 := by
  push_neg at h
  obtain ⟨h1, h2, h3, h4⟩ := h
  simp [report_rate_dth, h1, h2, h3, h4]

/-- Outside {0x1,0x2,0x4,0x8}, `report_rate_htd` returns the 0 sentinel. -/
lemma report_rate_htd_unmapped (w : Nat)
    (h : ¬(w = 0x1 ∨ w = 0x2 ∨ w = 0x4 ∨ w = 0x8)) : report_rate_htd w = 0 := by
  push_neg at h
  obtain ⟨h1, h2, h3, h4⟩ := h
  simp [report_rate_htd, h1, h2, h3, h4]

/-- C7: the report-rate translation is total and exhaustive in both
directions: the four Hz values map to the four wire bitmasks and back,
every input outside the mapped set yields the 0 unsupported-value sentinel
in both directions, and for every valid Hz value `v` the round trip
`report_rate_dth (report_rate_htd (report_rate_dth v)) = report_rate_dth v`
holds. -/
theorem report_rate_mapping_total_exhaustive_roundtrip :
    (report_rate_dth 125 = 0x1 ∧ report_rate_dth 250 = 0x2 ∧
     report_rate_dth 500 = 0x4 ∧ report_rate_dth 1000 = 0x8) ∧
    (report_rate_htd 0x1 = 125 ∧ report_rate_htd 0x2 = 250 ∧
     report_rate_htd 0x4 = 500 ∧ report_rate_htd 0x8 = 1000) ∧
    (∀ v, (v = 125 ∨ v = 250 ∨ v = 500 ∨ v = 1000) →
      report_rate_htd (report_rate_dth v) = v ∧
      report_rate_dth (report_rate_htd (report_rate_dth v)) = report_rate_dth v) ∧
    (∀ w, (w = 0x1 ∨ w = 0x2 ∨ w = 0x4 ∨ w = 0x8) →
      report_rate_dth (report_rate_htd w) = w) ∧
    (∀ v, ¬(v = 125 ∨ v = 250 ∨ v = 500 ∨ v = 1000) → report_rate_dth v = 0) ∧
    (∀ w, ¬(w = 0x1 ∨ w = 0x2 ∨ w = 0x4 ∨ w = 0x8) → report_rate_htd w = 0) := by
  refine ⟨by decide, by decide, ?_, ?_, ?_, ?_⟩
  · intro v hv
    rcases hv with h | h | h | h <;> subst h <;> exact ⟨by decide, by decide⟩
  · intro w hw
    rcases hw with h | h | h | h <;> subst h <;> decide
  · exact report_rate_dth_unmapped
  · exact report_rate_htd_unmapped

/-- Witness for C7: instantiating the quantified parts at 500 Hz, wire 0x4,
and the unmapped inputs 300 and 0x3. -/
theorem report_rate_mapping_witness :
    (report_rate_htd (report_rate_dth 500) = 500 ∧
      report_rate_dth (report_rate_htd (report_rate_dth 500)) = report_rate_dth 500) ∧
    report_rate_dth (report_rate_htd 0x4) = 0x4 ∧
    report_rate_dth 300 = 0 ∧ report_rate_htd 0x3 = 0 :=
  ⟨report_rate_mapping_total_exhaustive_roundtrip.2.2.1 500 (by decide),
   report_rate_mapping_total_exhaustive_roundtrip.2.2.2.1 0x4 (by decide),
   report_rate_mapping_total_exhaustive_roundtrip.2.2.2.2.1 300 (by decide),
   report_rate_mapping_total_exhaustive_roundtrip.2.2.2.2.2 0x3 (by decide)⟩

/-! ### Data model, from src/include/g502.h and src/g502.c -/

/-- `struct g502_profile` (g502.h).  The kernel `struct list_head entry`
link is represented by the profile's position in the device data's
`profiles_list`. -/
structure g502_profile where
  dev_rgb : Nat
  dev_report_rate : Nat
  dev_dpi : Nat
  index : Nat
deriving DecidableEq, Repr, Inhabited

/-- `struct logi_g502_data` (g502.c).  The kernel circular linked list
`profiles_list` is the Lean list in kernel-list order (head first);
`current_prof`, a pointer into the list, is the position `current_idx`.
The scratch `report` buffer, the input handles and the firmware stub are
not needed by any claim. -/
structure logi_g502_data where
  profiles_list : List g502_profile
  current_idx : Nat
deriving DecidableEq, Repr

/-- Dereference `gdv->current_prof`. -/
def currentProf (gdv : logi_g502_data) : g502_profile :=
  (gdv.profiles_list[gdv.current_idx]?).getD default

/-- Write through `gdv->current_prof`: replace the profile the current
pointer designates. -/
def setCurrentProf (gdv : logi_g502_data) (p : g502_profile) : logi_g502_data :=
  { gdv with profiles_list := gdv.profiles_list.set gdv.current_idx p }

lemma currentProf_setCurrentProf (gdv : logi_g502_data) (p : g502_profile)
    (h : gdv.current_idx < gdv.profiles_list.length) :
    currentProf (setCurrentProf gdv p) = p := by
  simp [currentProf, setCurrentProf, List.getElem?_set_eq_of_lt p h]

lemma setCurrentProf_idx (gdv : logi_g502_data) (p : g502_profile) :
    (setCurrentProf gdv p).current_idx = gdv.current_idx := rfl

lemma setCurrentProf_length (gdv : logi_g502_data) (p : g502_profile) :
    (setCurrentProf gdv p).profiles_list.length = gdv.profiles_list.length := by
  simp [setCurrentProf]

/-- `initialize_profile` (g502.c lines 58-66). -/
def initialize_profile (report_rate : Nat) (rgb : Nat) (dpi : Nat) (index : Nat) :
    g502_profile :=
  { dev_report_rate := report_rate, dev_rgb := rgb, dev_dpi := dpi, index := index }

/-- The `profile_params` table of `g502_init_drvdata`: per-slot default
(wire report-rate, dpi) pairs. -/
def profile_params : List (Nat × Nat) :=
  [(1, 800), (2, 1600), (4, 2400), (8, 3200), (8, 6000)]

/-- `g502_init_drvdata` (g502.c lines 346-404), restricted to the profile
store it builds.  For each `i < G502_MAX_PROFILES` the loop allocates a
profile and inserts it with `list_add`, which PREPENDS to the kernel list,
so the final list order is the reverse of the allocation order; each slot
is then seeded by `initialize_profile` from `profile_params`;
`current_prof` becomes `list_first_entry`, i.e. position 0 of the list. -/
def g502_init_drvdata : logi_g502_data :=
  let profs := (List.range G502_MAX_PROFILES).map (fun i =>
    initialize_profile (profile_params.getD i (0, 0)).1 0
      (profile_params.getD i (0, 0)).2 i)
  { profiles_list := profs.reverse, current_idx := 0 }

/-- Counterexample for C4: after `g502_init_drvdata`, the initial current
profile is NOT the profile with index 0 — it is the one with index 4,
because `list_add` prepends each newly allocated profile and
`list_first_entry` therefore yields the last-allocated one. -/
theorem init_current_profile_not_index_zero :
    (currentProf g502_init_drvdata).index = 4 ∧
    ¬((currentProf g502_init_drvdata).index = 0) := by
  constructor <;> decide

/-- C4 (amended): initialization seeds exactly `G502_MAX_PROFILES`
profiles, slot `i` carrying its fixed default (wire report-rate, dpi)
pair from `profile_params`, and the initial current profile is the
last-allocated one (index `G502_MAX_PROFILES - 1 = 4`), since profiles
are prepended to the kernel list. -/
theorem init_profile_store_defaults :
    g502_init_drvdata.profiles_list.length = G502_MAX_PROFILES ∧
    g502_init_drvdata.profiles_list =
      [initialize_profile 8 0 6000 4, initialize_profile 8 0 3200 3,
       initialize_profile 4 0 2400 2, initialize_profile 2 0 1600 1,
       initialize_profile 1 0 800 0] ∧
    currentProf g502_init_drvdata = initialize_profile 8 0 6000 4 ∧
    (currentProf g502_init_drvdata).index = G502_MAX_PROFILES - 1 := by
  refine ⟨by decide, by decide, by decide, by decide⟩

/-! ### Response correlator, from g502_raw_event (g502.c lines 247-282) -/

/-- Read byte `i` of a raw buffer.  The C buffer holds `u8` values, so
reads are reduced mod 256; out-of-range indices read as 0. -/
def u8get (data : List Nat) (i : Nat) : Nat := data.getD i 0 % 256

/-- Which branch of `g502_raw_event` handled the buffer: `regular` is the
`size == 8` hand-off to `g502_handle_regular_event` (C returns its 0),
`ignored` is the early `return 1` for anything that is not a long
response, `applied` reaches the feature `switch` (C returns 0). -/
inductive event_class where
  | regular
  | ignored
  | applied
deriving DecidableEq, Repr

/-- `g502_raw_event` (g502.c lines 247-282).  `data` is the raw inbound
buffer, `size` the byte count the transport reports.  Byte 0 is
`response->report_id`, byte 2 `response->feature_index`, byte 3
`response->funcindex_clientid`, bytes 4.. the long params.  The C masks
the function index with `& ~LINUX_KERNEL_SW_ID`; on a byte that is
`&&& 0xfe`.  The DPI store is
`(u16)(params_l[1] << 8) | params_l[2]`. -/
def g502_raw_event (gdv : logi_g502_data) (data : List Nat) (size : Nat) :
    event_class × logi_g502_data :=
  if size = 8 then (.regular, gdv)
  else if u8get data 0 ≠ G502_COMMAND_LONG_REPORT_ID ∨ size ≠ G502_COMMAND_LONG_SIZE then
    (.ignored, gdv)
  else
    let function_idx := u8get data 3 &&& 0xfe
    if u8get data 2 = G502_FEATURE_REPORT_RATE then
      if function_idx = G502_GET_REPORT_RATE then
        (.applied, setCurrentProf gdv
          { currentProf gdv with dev_report_rate := report_rate_htd (u8get data 4) })
      else (.applied, gdv)
    else if u8get data 2 = G502_FEATURE_DPI then
      if function_idx = G502_GET_DPI then
        (.applied, setCurrentProf gdv
          { currentProf gdv with
              dev_dpi := ((u8get data 5 <<< 8) % 65536) ||| u8get data 6 })
      else (.applied, gdv)
    else (.applied, gdv)

/-- A long GET-report-rate response updates the current profile's rate
through `report_rate_htd`. -/
lemma raw_event_rate_get (gdv : logi_g502_data) (d : List Nat)
    (h0 : u8get d 0 = 0x11) (h2 : u8get d 2 = 0x0b)
    (h3 : u8get d 3 &&& 0xfe = 0x10) :
    g502_raw_event gdv d 20 =
      (.applied, setCurrentProf gdv
        { currentProf gdv with dev_report_rate := report_rate_htd (u8get d 4) }) := by
  simp [g502_raw_event, h0, h2, h3, G502_COMMAND_LONG_REPORT_ID, G502_COMMAND_LONG_SIZE,
    G502_FEATURE_REPORT_RATE, G502_GET_REPORT_RATE]

/-- A long GET-dpi response updates the current profile's dpi from param
bytes 1 and 2, big-endian. -/
lemma raw_event_dpi_get (gdv : logi_g502_data) (d : List Nat)
    (h0 : u8get d 0 = 0x11) (h2 : u8get d 2 = 0x0a)
    (h3 : u8get d 3 &&& 0xfe = 0x20) :
    g502_raw_event gdv d 20 =
      (.applied, setCurrentProf gdv
        { currentProf gdv with
            dev_dpi := ((u8get d 5 <<< 8) % 65536) ||| u8get d 6 }) := by
  simp [g502_raw_event, h0, h2, h3, G502_COMMAND_LONG_REPORT_ID, G502_COMMAND_LONG_SIZE,
    G502_FEATURE_REPORT_RATE, G502_FEATURE_DPI, G502_GET_DPI]

/-! ### Control surface reads, from G502_ATTR_SHOW (g502.c lines 286-295) -/

/-- `report_rate_show`: `sysfs_emit(buf, "%u\n", current_prof->dev_report_rate)`. -/
def report_rate_show (gdv : logi_g502_data) : String :=
  toString (currentProf gdv).dev_report_rate ++ "\n"

/-- `dpi_show`: `sysfs_emit(buf, "%u\n", current_prof->dev_dpi)`. -/
def dpi_show (gdv : logi_g502_data) : String :=
  toString (currentProf gdv).dev_dpi ++ "\n"

/-- C1: from a current profile with rate 125 Hz and dpi 800, a well-formed
long GET-report-rate response with first param byte 0x04 sets the rate to
500 Hz; a subsequent well-formed long GET-dpi response with param bytes
[0x00,0x06,0x40] sets the dpi to 1600; the control-surface reads then
return "500\n" and "1600\n". -/
theorem get_responses_update_profile_and_shows (gdv : logi_g502_data)
    (d1 d2 : List Nat)
    (hidx : gdv.current_idx < gdv.profiles_list.length)
    (hrate : (currentProf gdv).dev_report_rate = 125)
    (hdpi : (currentProf gdv).dev_dpi = 800)
    (h10 : u8get d1 0 = 0x11) (h12 : u8get d1 2 = 0x0b)
    (h13 : u8get d1 3 &&& 0xfe = 0x10) (h14 : u8get d1 4 = 0x04)
    (h20 : u8get d2 0 = 0x11) (h22 : u8get d2 2 = 0x0a)
    (h23 : u8get d2 3 &&& 0xfe = 0x20) (h24 : u8get d2 4 = 0x00)
    (h25 : u8get d2 5 = 0x06) (h26 : u8get d2 6 = 0x40) :
    (currentProf (g502_raw_event (g502_raw_event gdv d1 20).2 d2 20).2).dev_report_rate
        = 500 ∧
    (currentProf (g502_raw_event (g502_raw_event gdv d1 20).2 d2 20).2).dev_dpi = 1600 ∧
    report_rate_show (g502_raw_event (g502_raw_event gdv d1 20).2 d2 20).2 = "500\n" ∧
    dpi_show (g502_raw_event (g502_raw_event gdv d1 20).2 d2 20).2 = "1600\n" := by
  have e1 := raw_event_rate_get gdv d1 h10 h12 h13
  have hg1 : (g502_raw_event gdv d1 20).2 =
      setCurrentProf gdv { currentProf gdv with dev_report_rate := 500 } := by
    rw [e1, h14]; simp [report_rate_htd]
  have hidx1 : ((g502_raw_event gdv d1 20).2).current_idx <
      ((g502_raw_event gdv d1 20).2).profiles_list.length := by
    rw [hg1, setCurrentProf_idx, setCurrentProf_length]; exact hidx
  have e2 := raw_event_dpi_get (g502_raw_event gdv d1 20).2 d2 h20 h22 h23
  have hcur1 : currentProf (g502_raw_event gdv d1 20).2 =
      { currentProf gdv with dev_report_rate := 500 } := by
    rw [hg1]; exact currentProf_setCurrentProf gdv _ hidx
  have harith : ((6 <<< 8) % 65536) ||| 64 = 1600 := by decide
  have hg2 : (g502_raw_event (g502_raw_event gdv d1 20).2 d2 20).2 =
      setCurrentProf (g502_raw_event gdv d1 20).2
        { currentProf gdv with dev_report_rate := 500, dev_dpi := 1600 } := by
    rw [e2, h25, h26, hcur1, harith]
  have hcur2 : currentProf (g502_raw_event (g502_raw_event gdv d1 20).2 d2 20).2 =
      { currentProf gdv with dev_report_rate := 500, dev_dpi := 1600 } := by
    rw [hg2]; exact currentProf_setCurrentProf _ _ hidx1
  refine ⟨by simp [hcur2], by simp [hcur2], ?_, ?_⟩
  · unfold report_rate_show
    rw [hcur2]
    show toString (500 : Nat) ++ "\n" = "500\n"
    exact rfl
  · unfold dpi_show
    rw [hcur2]
    show toString (1600 : Nat) ++ "\n" = "1600\n"
    exact rfl

/-- Witness for C1 at a concrete one-profile store and the two concrete
response frames of the scenario. -/
theorem get_responses_update_profile_witness :
    (currentProf (g502_raw_event (g502_raw_event
        { profiles_list := [initialize_profile 125 0 800 0], current_idx := 0 }
        ([0x11, 0xff, 0x0b, 0x11, 0x04] ++ List.replicate 15 0) 20).2
        ([0x11, 0xff, 0x0a, 0x21, 0x00, 0x06, 0x40] ++ List.replicate 13 0) 20).2).dev_report_rate
      = 500 ∧
    (currentProf (g502_raw_event (g502_raw_event
        { profiles_list := [initialize_profile 125 0 800 0], current_idx := 0 }
        ([0x11, 0xff, 0x0b, 0x11, 0x04] ++ List.replicate 15 0) 20).2
        ([0x11, 0xff, 0x0a, 0x21, 0x00, 0x06, 0x40] ++ List.replicate 13 0) 20).2).dev_dpi
      = 1600 ∧
    report_rate_show (g502_raw_event (g502_raw_event
        { profiles_list := [initialize_profile 125 0 800 0], current_idx := 0 }
        ([0x11, 0xff, 0x0b, 0x11, 0x04] ++ List.replicate 15 0) 20).2
        ([0x11, 0xff, 0x0a, 0x21, 0x00, 0x06, 0x40] ++ List.replicate 13 0) 20).2 = "500\n" ∧
    dpi_show (g502_raw_event (g502_raw_event
        { profiles_list := [initialize_profile 125 0 800 0], current_idx := 0 }
        ([0x11, 0xff, 0x0b, 0x11, 0x04] ++ List.replicate 15 0) 20).2
        ([0x11, 0xff, 0x0a, 0x21, 0x00, 0x06, 0x40] ++ List.replicate 13 0) 20).2 = "1600\n" :=
  get_responses_update_profile_and_shows _ _ _ (by decide) (by decide) (by decide)
    (by decide) (by decide) (by decide) (by decide) (by decide) (by decide)
    (by decide) (by decide) (by decide) (by decide)

/-- Counterexample for C2: the decode path does not classify every buffer
of length other than 7 or 20 as malformed/ignored, and a well-formed
7-byte short frame is not given a typed view either.  Concretely: an
8-byte buffer is handed to the regular-event handler, and a 7-byte buffer
whose leading byte is the short report id 0x10 is ignored (the code
insists on a 20-byte long report). -/
theorem raw_event_classification_counterexample :
    (g502_raw_event g502_init_drvdata (List.replicate 8 0) 8).1 = .regular ∧
    (g502_raw_event g502_init_drvdata (List.replicate 8 0) 8).1 ≠ .ignored ∧
    (g502_raw_event g502_init_drvdata [0x10, 0xff, 0x0b, 0x11, 0, 0, 0] 7).1
      = .ignored := by
  refine ⟨by decide, by decide, by decide⟩

/-- C2 (amended): buffers of length 8 are handed to the regular-event
handler; a typed response view is produced if and only if the length is
exactly 20 and the leading report_id byte is the long id 0x11 (7-byte
short frames included among the ignored); every ignored buffer leaves the
profile store unmutated. -/
theorem raw_event_classification (gdv : logi_g502_data) (data : List Nat) (size : Nat) :
    ((g502_raw_event gdv data size).1 = .regular ↔ size = 8) ∧
    ((g502_raw_event gdv data size).1 = .applied ↔
      (size ≠ 8 ∧ size = G502_COMMAND_LONG_SIZE ∧
        u8get data 0 = G502_COMMAND_LONG_REPORT_ID)) ∧
    ((g502_raw_event gdv data size).1 = .ignored ↔
      (size ≠ 8 ∧ ¬(size = G502_COMMAND_LONG_SIZE ∧
        u8get data 0 = G502_COMMAND_LONG_REPORT_ID))) ∧
    ((g502_raw_event gdv data size).1 = .ignored →
      (g502_raw_event gdv data size).2 = gdv) ∧
    ((g502_raw_event gdv data size).1 = .regular →
      (g502_raw_event gdv data size).2 = gdv) := by
  by_cases h8 : size = 8
  · subst h8
    simp [g502_raw_event]
  · by_cases hid : u8get data 0 = G502_COMMAND_LONG_REPORT_ID
    · by_cases hsz : size = G502_COMMAND_LONG_SIZE
      · subst hsz
        simp [g502_raw_event, h8, hid, G502_COMMAND_LONG_SIZE,
          apply_ite Prod.fst, ite_self]
      · simp [g502_raw_event, h8, hid, hsz]
    · simp [g502_raw_event, h8, hid]

/-- Witness for C2 (amended) at a concrete ignored 5-byte buffer. -/
theorem raw_event_classification_witness :
    ((g502_raw_event g502_init_drvdata [0, 0, 0, 0, 0] 5).1 = .regular ↔ (5 : Nat) = 8) ∧
    ((g502_raw_event g502_init_drvdata [0, 0, 0, 0, 0] 5).1 = .applied ↔
      ((5 : Nat) ≠ 8 ∧ (5 : Nat) = G502_COMMAND_LONG_SIZE ∧
        u8get [0, 0, 0, 0, 0] 0 = G502_COMMAND_LONG_REPORT_ID)) ∧
    ((g502_raw_event g502_init_drvdata [0, 0, 0, 0, 0] 5).1 = .ignored ↔
      ((5 : Nat) ≠ 8 ∧ ¬((5 : Nat) = G502_COMMAND_LONG_SIZE ∧
        u8get [0, 0, 0, 0, 0] 0 = G502_COMMAND_LONG_REPORT_ID))) ∧
    ((g502_raw_event g502_init_drvdata [0, 0, 0, 0, 0] 5).1 = .ignored →
      (g502_raw_event g502_init_drvdata [0, 0, 0, 0, 0] 5).2 = g502_init_drvdata) ∧
    ((g502_raw_event g502_init_drvdata [0, 0, 0, 0, 0] 5).1 = .regular →
      (g502_raw_event g502_init_drvdata [0, 0, 0, 0, 0] 5).2 = g502_init_drvdata) :=
  raw_event_classification g502_init_drvdata [0, 0, 0, 0, 0] 5

/-- C10: a well-formed 20-byte long GET-report-rate response whose first
param byte is outside {0x1,0x2,0x4,0x8} makes the handler store the 0
unsupported-value sentinel of `report_rate_htd` into the current
profile's report-rate field — the sentinel is written into shared profile
state instead of the update being rejected. -/
theorem unmapped_rate_response_stores_zero (gdv : logi_g502_data) (d : List Nat)
    (hidx : gdv.current_idx < gdv.profiles_list.length)
    (h0 : u8get d 0 = 0x11) (h2 : u8get d 2 = 0x0b)
    (h3 : u8get d 3 &&& 0xfe = 0x10)
    (hb : ¬(u8get d 4 = 0x1 ∨ u8get d 4 = 0x2 ∨ u8get d 4 = 0x4 ∨ u8get d 4 = 0x8)) :
    (g502_raw_event gdv d 20).1 = .applied ∧
    (currentProf (g502_raw_event gdv d 20).2).dev_report_rate = 0 := by
  have e := raw_event_rate_get gdv d h0 h2 h3
  constructor
  · rw [e]
  · have : (g502_raw_event gdv d 20).2 = setCurrentProf gdv
        { currentProf gdv with dev_report_rate := report_rate_htd (u8get d 4) } := by
      rw [e]
    rw [this, currentProf_setCurrentProf gdv _ hidx]
    exact report_rate_htd_unmapped (u8get d 4) hb

/-- Witness for C10: a GET-report-rate response carrying the unmapped
param byte 0x03 zeroes the current profile's rate. -/
theorem unmapped_rate_response_witness :
    (g502_raw_event g502_init_drvdata
        ([0x11, 0xff, 0x0b, 0x11, 0x03] ++ List.replicate 15 0) 20).1 = .applied ∧
    (currentProf (g502_raw_event g502_init_drvdata
        ([0x11, 0xff, 0x0b, 0x11, 0x03] ++ List.replicate 15 0) 20).2).dev_report_rate
      = 0 :=
  unmapped_rate_response_stores_zero g502_init_drvdata _ (by decide) (by decide)
    (by decide) (by decide) (by decide)

/-! ### Request dispatcher, from g502_send_report / g502_update_device_config
(g502.c lines 68-155).  The transport primitive `hid_hw_raw_request` is
external: it is modelled as an oracle `hw : Nat → Int` giving the return
code of the n-th transport call, with `n` the running call counter. -/

/-- `g502_send_report` (g502.c lines 68-102): returns 0 without touching
the transport when the interface number is 0; otherwise performs one
`hid_hw_raw_request` and returns its code when negative, else 0.  The
result is (return value, new call counter). -/
def g502_send_report (ifnum : Nat) (hw : Nat → Int) (n : Nat) : Int × Nat :=
  if ifnum = 0 then (0, n)
  else if hw n < 0 then (hw n, n + 1)
  else (0, n + 1)

/-- `g502_update_device_config` (g502.c lines 125-155).  For a nonzero
`report_rate` it submits a SET-report-rate frame and then the
`refresh_report_rate` GET; for a nonzero `dpi` it submits a SET-dpi frame
and then the `refresh_dpi` GET.  The return value of every
`g502_send_report` call is discarded and the function returns 0; the
profile store `gdv` is never touched.  Result: (return value, new call
counter, device data). -/
def g502_update_device_config (ifnum : Nat) (hw : Nat → Int) (n : Nat)
    (report_rate dpi : Nat) (gdv : logi_g502_data) : Int × Nat × logi_g502_data :=
  let n1 := if report_rate ≠ 0 then
      (g502_send_report ifnum hw (g502_send_report ifnum hw n).2).2
    else n
  let n2 := if dpi ≠ 0 then
      (g502_send_report ifnum hw (g502_send_report ifnum hw n1).2).2
    else n1
  (0, n2, gdv)

/-- Counterexample for C3: with a transport whose `hid_hw_raw_request`
fails with -5 (-EIO) on every call, `g502_send_report` itself returns -5,
yet `g502_update_device_config` for a report-rate update returns 0 — the
transport error is NOT propagated to the caller of update_config. -/
theorem update_config_swallows_transport_error :
    g502_send_report 1 (fun _ => (-5 : Int)) 0 = (-5, 1) ∧
    (g502_update_device_config 1 (fun _ => (-5 : Int)) 0 4 0 g502_init_drvdata).1 = 0 ∧
    ((0 : Int) ≠ -5) := by
  refine ⟨by decide, by decide, by decide⟩

/-- C3 (amended): when the transport send primitive fails, the error code
is propagated to the caller of `g502_send_report` (the submit primitive)
after exactly one transport attempt (no retry), but
`g502_update_device_config` discards every send result and returns 0; in
both cases the stored profile state is left unchanged. -/
theorem transport_error_propagation (ifnum : Nat) (hw : Nat → Int) (n : Nat)
    (rate dpi : Nat) (gdv : logi_g502_data)
    (hfail : hw n < 0) (hif : ifnum ≠ 0) :
    g502_send_report ifnum hw n = (hw n, n + 1) ∧
    (g502_update_device_config ifnum hw n rate dpi gdv).1 = 0 ∧
    (g502_update_device_config ifnum hw n rate dpi gdv).2.2 = gdv := by
  refine ⟨?_, rfl, rfl⟩
  simp [g502_send_report, hif, hfail]

/-- Witness for C3 (amended): a concrete always-failing transport. -/
theorem transport_error_propagation_witness :
    ((fun _ => (-5 : Int)) 0 < 0) ∧ ((1 : Nat) ≠ 0) ∧
    (g502_send_report 1 (fun _ => (-5 : Int)) 0 = (-5, 0 + 1) ∧
     (g502_update_device_config 1 (fun _ => (-5 : Int)) 0 4 0 g502_init_drvdata).1 = 0 ∧
     (g502_update_device_config 1 (fun _ => (-5 : Int)) 0 4 0 g502_init_drvdata).2.2
        = g502_init_drvdata) :=
  ⟨by decide, by decide,
   transport_error_propagation 1 (fun _ => (-5 : Int)) 0 4 0 g502_init_drvdata
     (by decide) (by decide)⟩

/-! ### Lock discipline of the send path (C5).  g502_send_report's body,
lines 88-100, in source order: `mutex_trylock(&gdv->mutex_dev)`, then the
blocking `hid_hw_raw_request`, then `mutex_unlock`.  The execution is
modelled as the sequence of these events; `acq` says whether the trylock
call (whose result the code discards) obtained the lock. -/

inductive send_event where
  | trylock (acquired : Bool)
  | raw_request
  | unlock
deriving DecidableEq, Repr

/-- The event trace of one `g502_send_report` call: empty for interface 0
(early return before any locking or I/O), otherwise
trylock-request-unlock in source order. -/
def g502_send_report_trace (ifnum : Nat) (acq : Bool) : List send_event :=
  if ifnum = 0 then []
  else [.trylock acq, .raw_request, .unlock]

/-- Whether some `raw_request` event of the trace executes while the lock
is held, starting from lock state `held`. -/
def request_while_locked : List send_event → Bool → Bool
  | [], _ => false
  | .trylock b :: rest, held => request_while_locked rest (held || b)
  | .raw_request :: rest, held => held || request_while_locked rest held
  | .unlock :: rest, _ => request_while_locked rest false

/-- Counterexample for C5: on a non-zero interface, when the
`mutex_trylock` succeeds, the blocking `hid_hw_raw_request` is executed
while the device lock is held — the lock is taken around the I/O, not
only around in-memory profile access. -/
theorem send_report_io_under_lock :
    request_while_locked (g502_send_report_trace 1 true) false = true := by
  decide

/-- C5 (amended): `g502_send_report` brackets the blocking transport call
with `mutex_trylock`/`mutex_unlock`, so exactly when the trylock acquires
the lock, the I/O runs with the lock held; when the interface number is 0
no locking or I/O happens at all. -/
theorem send_report_lock_shape (ifnum : Nat) (acq : Bool) :
    (ifnum = 0 → g502_send_report_trace ifnum acq = []) ∧
    (ifnum ≠ 0 →
      g502_send_report_trace ifnum acq = [.trylock acq, .raw_request, .unlock] ∧
      request_while_locked (g502_send_report_trace ifnum acq) false = acq) := by
  constructor
  · intro h
    simp [g502_send_report_trace, h]
  · intro h
    refine ⟨by simp [g502_send_report_trace, h], ?_⟩
    simp [g502_send_report_trace, h, request_while_locked]

/-- Witness for C5 (amended) at interface 1 with a successful trylock. -/
theorem send_report_lock_shape_witness :
    ((1 : Nat) = 0 → g502_send_report_trace 1 true = []) ∧
    ((1 : Nat) ≠ 0 →
      g502_send_report_trace 1 true = [.trylock true, .raw_request, .unlock] ∧
      request_while_locked (g502_send_report_trace 1 true) false = true) :=
  send_report_lock_shape 1 true

/-! ### Control surface writes, from report_rate_store / dpi_store
(g502.c lines 297-330).  The host primitives `kstrtouint`/`kstrtou16`
parse the written string; their outcome is the `parse` argument (`none`
for a parse failure, `some v` for the parsed numeric value — `kstrtou16`
itself fails on values above 65535, so such `some v` never arise for
dpi, but the model handles them and rejects them anyway).  `count` is the
byte count of the write.  Result: (return value, new transport call
counter, device data). -/

/-- `report_rate_store` (g502.c lines 297-313): parse failure or a rate
outside the `report_rate_dth` mapping returns -EINVAL (-22) before any
I/O; otherwise the update is dispatched (SET + pull-back GET inside
`g502_update_device_config`, plus the explicit `refresh_report_rate`) and
the write returns `count`. -/
def report_rate_store (parse : Option Nat) (count ifnum : Nat) (hw : Nat → Int)
    (n : Nat) (gdv : logi_g502_data) : Int × Nat × logi_g502_data :=
  match parse with
  | none => (-22, n, gdv)
  | some v =>
    if report_rate_dth v = 0 then (-22, n, gdv)
    else
      let r := g502_update_device_config ifnum hw n (report_rate_dth v) 0 gdv
      let r2 := g502_send_report ifnum hw r.2.1
      ((count : Int), r2.2, r.2.2)

/-- `dpi_store` (g502.c lines 315-330): parse failure or a dpi above
`G502_MAX_RESOLUTION_DPI` returns -EINVAL (-22) before any I/O (the
`0 > dpi_requested` half of the C test is vacuous on an unsigned);
otherwise the update is dispatched and the write returns `count`. -/
def dpi_store (parse : Option Nat) (count ifnum : Nat) (hw : Nat → Int)
    (n : Nat) (gdv : logi_g502_data) : Int × Nat × logi_g502_data :=
  match parse with
  | none => (-22, n, gdv)
  | some v =>
    if G502_MAX_RESOLUTION_DPI < v then (-22, n, gdv)
    else
      let r := g502_update_device_config ifnum hw n 0 v gdv
      let r2 := g502_send_report ifnum hw r.2.1
      ((count : Int), r2.2, r.2.2)

/-- C6: a report_rate write succeeds iff it parses to one of
{125,250,500,1000}; a dpi write succeeds iff it parses to a value in
[0, 25600]; every failing write returns -EINVAL with no transport I/O and
the stored profile state unchanged; in particular "300" is rejected. -/
theorem attribute_store_validation (parse : Option Nat) (count ifnum : Nat)
    (hw : Nat → Int) (n : Nat) (gdv : logi_g502_data) :
    (0 ≤ (report_rate_store parse count ifnum hw n gdv).1 ↔
      (∃ v, parse = some v ∧ (v = 125 ∨ v = 250 ∨ v = 500 ∨ v = 1000))) ∧
    ((report_rate_store parse count ifnum hw n gdv).1 < 0 →
      report_rate_store parse count ifnum hw n gdv = (-22, n, gdv)) ∧
    (0 ≤ (dpi_store parse count ifnum hw n gdv).1 ↔
      (∃ v, parse = some v ∧ v ≤ G502_MAX_RESOLUTION_DPI)) ∧
    ((dpi_store parse count ifnum hw n gdv).1 < 0 →
      dpi_store parse count ifnum hw n gdv = (-22, n, gdv)) ∧
    report_rate_store (some 300) count ifnum hw n gdv = (-22, n, gdv) := by
  have hdth : ∀ v : Nat, report_rate_dth v = 0 ↔
      ¬(v = 125 ∨ v = 250 ∨ v = 500 ∨ v = 1000) := by
    intro v
    constructor
    · intro h0 hv
      rcases hv with h | h | h | h <;> subst h <;> simp [report_rate_dth] at h0
    · exact report_rate_dth_unmapped v
  refine ⟨?_, ?_, ?_, ?_, by norm_num [report_rate_store, report_rate_dth]⟩
  · cases parse with
    | none => simp [report_rate_store]
    | some v =>
      by_cases h0 : report_rate_dth v = 0
      · simp [report_rate_store, h0, (hdth v).mp h0]
      · have hv : v = 125 ∨ v = 250 ∨ v = 500 ∨ v = 1000 := by
          by_contra hc
          exact h0 (report_rate_dth_unmapped v hc)
        simp [report_rate_store, h0, hv]
  · cases parse with
    | none => intro _; rfl
    | some v =>
      by_cases h0 : report_rate_dth v = 0
      · intro _; simp [report_rate_store, h0]
      · intro hlt
        exfalso
        have : (report_rate_store (some v) count ifnum hw n gdv).1 = (count : Int) := by
          simp [report_rate_store, h0]
        omega
  · cases parse with
    | none => simp [dpi_store]
    | some v =>
      by_cases h0 : G502_MAX_RESOLUTION_DPI < v
      · simp [dpi_store, h0]
        try omega
      · simp [dpi_store, h0]
        try omega
  · cases parse with
    | none => intro _; rfl
    | some v =>
      by_cases h0 : G502_MAX_RESOLUTION_DPI < v
      · intro _; simp [dpi_store, h0]
      · intro hlt
        exfalso
        have : (dpi_store (some v) count ifnum hw n gdv).1 = (count : Int) := by
          simp [dpi_store, h0]
        omega

/-- Witness for C6 at a concrete accepted rate write of "500". -/
theorem attribute_store_validation_witness :
    (0 ≤ (report_rate_store (some 500) 4 1 (fun _ => (0 : Int)) 0 g502_init_drvdata).1 ↔
      (∃ v, (some 500 : Option Nat) = some v ∧
        (v = 125 ∨ v = 250 ∨ v = 500 ∨ v = 1000))) ∧
    ((report_rate_store (some 500) 4 1 (fun _ => (0 : Int)) 0 g502_init_drvdata).1 < 0 →
      report_rate_store (some 500) 4 1 (fun _ => (0 : Int)) 0 g502_init_drvdata =
        (-22, 0, g502_init_drvdata)) ∧
    (0 ≤ (dpi_store (some 500) 4 1 (fun _ => (0 : Int)) 0 g502_init_drvdata).1 ↔
      (∃ v, (some 500 : Option Nat) = some v ∧ v ≤ G502_MAX_RESOLUTION_DPI)) ∧
    ((dpi_store (some 500) 4 1 (fun _ => (0 : Int)) 0 g502_init_drvdata).1 < 0 →
      dpi_store (some 500) 4 1 (fun _ => (0 : Int)) 0 g502_init_drvdata =
        (-22, 0, g502_init_drvdata)) ∧
    report_rate_store (some 300) 4 1 (fun _ => (0 : Int)) 0 g502_init_drvdata =
      (-22, 0, g502_init_drvdata) :=
  attribute_store_validation (some 500) 4 1 (fun _ => (0 : Int)) 0 g502_init_drvdata

/-! ### Profile switching, from g502_switch_profile (g502.c lines 158-173) -/

/-- `g502_switch_profile`: returns -EINVAL on an empty profile list;
otherwise advances `current_prof` with `list_next_entry_circular` (the
first element again when the current one is last) and pushes the new
profile's stored rate and dpi through `g502_update_device_config`
(which leaves the store untouched).  Result: (return value, new
transport call counter, device data). -/
def g502_switch_profile (ifnum : Nat) (hw : Nat → Int) (n : Nat)
    (gdv : logi_g502_data) : Int × Nat × logi_g502_data :=
  if gdv.profiles_list.isEmpty then (-22, n, gdv)
  else
    let gdv2 : logi_g502_data :=
      { gdv with current_idx :=
          if gdv.current_idx = gdv.profiles_list.length - 1 then 0
          else gdv.current_idx + 1 }
    let r := g502_update_device_config ifnum hw n
      (currentProf gdv2).dev_report_rate (currentProf gdv2).dev_dpi gdv2
    (0, r.2.1, r.2.2)

/-- `k` successive `g502_switch_profile` calls, threading the transport
call counter and the device data. -/
def switchIter (ifnum : Nat) (hw : Nat → Int) :
    Nat → Nat → logi_g502_data → Nat × logi_g502_data
  | 0, n, g => (n, g)
  | k + 1, n, g =>
      switchIter ifnum hw k (g502_switch_profile ifnum hw n g).2.1
        (g502_switch_profile ifnum hw n g).2.2

/-- The circular advance on indices: last wraps to first. -/
lemma circular_next_eq_mod (i n : Nat) (h : i < n) :
    (if i = n - 1 then 0 else i + 1) = (i + 1) % n := by
  have hn : 0 < n := Nat.lt_of_le_of_lt (Nat.zero_le i) h
  by_cases he : i = n - 1
  · rw [if_pos he, he, Nat.sub_add_cancel hn, Nat.mod_self]
  · rw [if_neg he]
    symm
    apply Nat.mod_eq_of_lt
    omega

/-- One switch step only moves the current index, by +1 mod the store
size. -/
lemma switch_profile_state (ifnum : Nat) (hw : Nat → Int) (n : Nat)
    (g : logi_g502_data) (h1 : g.profiles_list ≠ [])
    (h2 : g.current_idx < g.profiles_list.length) :
    (g502_switch_profile ifnum hw n g).2.2 =
      { g with current_idx := (g.current_idx + 1) % g.profiles_list.length } := by
  have hne : g.profiles_list.isEmpty = false := by
    simp [List.isEmpty_iff, h1]
  simp only [g502_switch_profile, hne, Bool.false_eq_true, if_false,
    g502_update_device_config]
  rw [circular_next_eq_mod g.current_idx g.profiles_list.length h2]

/-- After `k` switch steps the current index has advanced by `k`
mod the store size; nothing else changes. -/
lemma switchIter_state (ifnum : Nat) (hw : Nat → Int) (k : Nat) :
    ∀ n g, g.profiles_list ≠ [] → g.current_idx < g.profiles_list.length →
    (switchIter ifnum hw k n g).2 =
      { g with current_idx := (g.current_idx + k) % g.profiles_list.length } := by
  induction k with
  | zero =>
    intro n g h1 h2
    simp only [switchIter]
    rw [Nat.add_zero, Nat.mod_eq_of_lt h2]
  | succ k ih =>
    intro n g h1 h2
    have hstep := switch_profile_state ifnum hw n g h1 h2
    simp only [switchIter]
    rw [hstep]
    have hlen : ({ g with current_idx :=
        (g.current_idx + 1) % g.profiles_list.length } :
          logi_g502_data).profiles_list = g.profiles_list := rfl
    rw [ih _ _ (by rw [hlen]; exact h1)
      (by rw [hlen]; exact Nat.mod_lt _ (Nat.lt_of_le_of_lt (Nat.zero_le _) h2))]
    simp only [hlen]
    rw [Nat.mod_add_mod, Nat.add_assoc, Nat.add_comm 1 k]

/-- C8: for every non-empty profile store, N = store-size successive
`g502_switch_profile` calls bring the current pointer (indeed the whole
store) back to where it started; for a store of size 1 a single call
already returns the same single profile. -/
theorem switch_profile_circular (ifnum : Nat) (hw : Nat → Int) (n : Nat)
    (gdv : logi_g502_data) (h1 : gdv.profiles_list ≠ [])
    (h2 : gdv.current_idx < gdv.profiles_list.length) :
    (switchIter ifnum hw gdv.profiles_list.length n gdv).2 = gdv ∧
    (gdv.profiles_list.length = 1 →
      (g502_switch_profile ifnum hw n gdv).2.2 = gdv) := by
  constructor
  · rw [switchIter_state ifnum hw gdv.profiles_list.length n gdv h1 h2]
    have : (gdv.current_idx + gdv.profiles_list.length) % gdv.profiles_list.length
        = gdv.current_idx := by
      rw [Nat.add_mod_right, Nat.mod_eq_of_lt h2]
    rw [this]
  · intro hone
    rw [switch_profile_state ifnum hw n gdv h1 h2, hone]
    have : (gdv.current_idx + 1) % 1 = gdv.current_idx := by omega
    rw [this]

/-- Witness for C8 at a concrete store of size 1: the switch returns the
same single profile, and one (= N) iteration is the identity. -/
theorem switch_profile_circular_witness :
    (switchIter 1 (fun _ => (0 : Int))
        (logi_g502_data.mk [initialize_profile 1 0 800 0] 0).profiles_list.length 0
        (logi_g502_data.mk [initialize_profile 1 0 800 0] 0)).2 =
      logi_g502_data.mk [initialize_profile 1 0 800 0] 0 ∧
    ((logi_g502_data.mk [initialize_profile 1 0 800 0] 0).profiles_list.length = 1 →
      (g502_switch_profile 1 (fun _ => (0 : Int)) 0
        (logi_g502_data.mk [initialize_profile 1 0 800 0] 0)).2.2 =
      logi_g502_data.mk [initialize_profile 1 0 800 0] 0) :=
  switch_profile_circular 1 (fun _ => (0 : Int)) 0
    (logi_g502_data.mk [initialize_profile 1 0 800 0] 0) (by decide) (by decide)

/-! ### Report encoder, from __do_fill_report (g502.c lines 43-56) -/

/-- `struct hidpp_report` (g502.h): four header bytes and a 16-byte param
union (`params_s` is the first 3 bytes of `params_l`), 20 bytes in all. -/
structure hidpp_report where
  report_id : Nat
  device_index : Nat
  feature_index : Nat
  funcindex_clientid : Nat
  params : List Nat
deriving DecidableEq, Repr

/-- `memcpy(dst, src, len)` into a zeroed region: exactly `len` bytes are
written, taken from `src`, a missing source byte reading as 0 (every C
caller passes a zero-initialized params array at least `len` long). -/
def padTo : Nat → List Nat → List Nat
  | 0, _ => []
  | k + 1, [] => 0 :: padTo k []
  | k + 1, x :: xs => x :: padTo k xs

/-- `__do_fill_report` (g502.c lines 43-56): `memset` zero-fills the
whole 20-byte report, the four header bytes are set (`device_index`
always the receiver constant, the software-identifier tag OR'd into the
function byte), and when `params` is non-null, `report_length - 4` bytes
of it are copied into the param union, whose remaining bytes stay 0 from
the memset. -/
def __do_fill_report (id feature_index function_index : Nat)
    (report_length : Nat) (params : Option (List Nat)) : hidpp_report :=
  { report_id := id
    device_index := G502_DEVICE_INDEX_RECEIVER
    feature_index := feature_index
    funcindex_clientid := function_index ||| LINUX_KERNEL_SW_ID
    params :=
      match params with
      | none => List.replicate 16 0
      | some ps =>
          padTo (report_length - 4) ps ++
            List.replicate (16 - (report_length - 4)) 0 }

/-- The report as the flat byte buffer `(u8 *)report` the transport
sends: 20 bytes, the params union last. -/
def frameBytes (r : hidpp_report) : List Nat :=
  r.report_id :: r.device_index :: r.feature_index :: r.funcindex_clientid :: r.params

lemma padTo_three (ps : List Nat) :
    padTo 3 ps = [ps.getD 0 0, ps.getD 1 0, ps.getD 2 0] := by
  match ps with
  | [] => rfl
  | [a] => rfl
  | [a, b] => rfl
  | a :: b :: c :: rest => rfl

/-- C9: encoding a Short frame produces exactly the four header bytes
followed by the first 3 param bytes (missing ones zero-padded) at frame
byte indices 4-6, and bytes 7-19 all zero: the param copy never writes
past byte index 6, and the rest of the frame keeps the zero fill. -/
theorem short_frame_encode_bounded (feature_index function_index : Nat)
    (ps : List Nat) :
    frameBytes (__do_fill_report G502_COMMAND_SHORT_REPORT_ID feature_index
        function_index G502_COMMAND_SHORT_SIZE (some ps)) =
      G502_COMMAND_SHORT_REPORT_ID :: G502_DEVICE_INDEX_RECEIVER :: feature_index ::
        (function_index ||| LINUX_KERNEL_SW_ID) ::
        ps.getD 0 0 :: ps.getD 1 0 :: ps.getD 2 0 :: List.replicate 13 0 := by
  show _ :: _ :: _ :: _ :: (padTo (G502_COMMAND_SHORT_SIZE - 4) ps ++
      List.replicate (16 - (G502_COMMAND_SHORT_SIZE - 4)) 0) = _
  have h7 : G502_COMMAND_SHORT_SIZE - 4 = 3 := rfl
  rw [h7, padTo_three ps]
  rfl

/-- Witness-style corollary evaluating C9 at an over-long params buffer:
only its first 3 bytes reach the frame and bytes 7-19 stay zero. -/
theorem short_frame_encode_witness :
    frameBytes (__do_fill_report G502_COMMAND_SHORT_REPORT_ID 0x0b 0x20
        G502_COMMAND_SHORT_SIZE (some [9, 8, 7, 6, 5, 4, 3, 2, 1])) =
      G502_COMMAND_SHORT_REPORT_ID :: G502_DEVICE_INDEX_RECEIVER :: 0x0b ::
        (0x20 ||| LINUX_KERNEL_SW_ID) :: 9 :: 8 :: 7 :: List.replicate 13 0 :=
  short_frame_encode_bounded 0x0b 0x20 [9, 8, 7, 6, 5, 4, 3, 2, 1]

end G502
